import Mathlib

/-!
Shallow embedding of `src/robinhood_api.py` (the authentication, caching and
session layer of the sp-dashboard repository), together with proofs settling
the specification claims about it.

Modelling conventions:
* time (`time.time()`) is a natural number of seconds, carried in the state;
* the token file, the in-memory `TOKEN_INFO`, the `LOGOUT_REGISTERED` flag and
  the `.cache` directory are fields of an explicit `ApiState`;
* the network is an oracle: `respond : String → TokenResponse` gives, for each
  `client_id`, the outcome of `POST /oauth2/token/` with that identifier, and
  `histRespond span interval` gives the outcome of `GET /portfolios/historicals/`;
* fallible Python code (exception propagation) is `Except String`;
* the requests actually issued are logged in an `Effects` record so that
  claims about "no network call" / "exactly N requests" are statable.
-/

namespace RobinhoodApi

/-- A persisted token record: the JSON object `{"access_token": ..., "expires_at": ...}`
written by `_save_token` (src/robinhood_api.py lines 39-42). -/
structure TokenRecord where
  access_token : String
  expires_at : Nat
deriving DecidableEq, Repr

/-- State of the token file `~/.rh_token`: absent, present but not parseable as
JSON (or unreadable), or holding a well-formed record. -/
inductive TokenFileState where
  | missing
  | malformed
  | stored (info : TokenRecord)
deriving DecidableEq, Repr

/-- A record of the upstream history response: `begins_at` is modelled as the
parsed timestamp (a natural number; `pd.to_datetime` is strictly monotone on
valid ISO-8601 strings), `equity` is the numeric-as-string field. -/
structure HistRecord where
  begins_at : Nat
  equity : String
deriving DecidableEq, Repr

/-- The JSON payload of the history endpoint: it may carry the record list
under `equity_historicals` or under `historicals` (src/robinhood_api.py line 207). -/
structure HistoryData where
  equity_historicals : Option (List HistRecord)
  historicals : Option (List HistRecord)
deriving DecidableEq, Repr

/-- Outcome of one `POST /oauth2/token/` request for a given `client_id`:
`ok` is HTTP 200 with the parsed JSON payload (`access_token`, optional
`expires_in`); `unauthorized` is HTTP 401, carrying `errorStr` (the Python
string form `str(error_data)` of the parsed JSON error payload) and `text`
(the raw response body `await resp.text()`); `other` is any status that is
neither 200 nor 401, with its raw body. -/
inductive TokenResponse where
  | ok (access_token : String) (expires_in : Option Nat)
  | unauthorized (errorStr : String) (text : String)
  | other (status : Nat) (text : String)
deriving DecidableEq, Repr

/-- Outcome of one `GET /portfolios/historicals/` request. -/
inductive HistResponse where
  | ok (data : HistoryData)
  | err (status : Nat) (text : String)
deriving DecidableEq, Repr

/-- The module-level mutable state of `robinhood_api.py` plus the clock. -/
structure ApiState where
  tokenFile : TokenFileState
  tokenInfo : Option TokenRecord
  logoutRegistered : Bool
  cache : String → String → Option (Nat × HistoryData)
  now : Nat

/-- Log of the observable I/O performed by a call: whether client-id scraping
was attempted, the form data of each token request in order, and the
`(span, interval)` parameters of each history request in order. -/
structure Effects where
  scrapeAttempted : Bool
  tokenRequests : List (List (String × String))
  historyRequests : List (String × String)
deriving DecidableEq, Repr

/-- No observable I/O. -/
def noEffects : Effects := ⟨false, [], []⟩

/-- Decidable equality for `Except`, so concrete results can be checked by
`decide`. -/
instance {ε α : Type} [DecidableEq ε] [DecidableEq α] : DecidableEq (Except ε α) := fun x y =>
  match x, y with
  | .ok a, .ok b =>
    if h : a = b then .isTrue (by rw [h]) else .isFalse (fun hh => h (Except.ok.inj hh))
  | .error a, .error b =>
    if h : a = b then .isTrue (by rw [h]) else .isFalse (fun hh => h (Except.error.inj hh))
  | .ok a, .error b => .isFalse (fun hh => Except.noConfusion hh)
  | .error a, .ok b => .isFalse (fun hh => Except.noConfusion hh)

/-- Environment variables consulted by the module. -/
structure Env where
  rh_username : Option String
  rh_password : Option String
  rh_mfa : Option String
deriving DecidableEq, Repr

/-- Values an interactive prompt would return (`input` / `getpass.getpass`). -/
structure Prompts where
  username : String
  password : String
deriving DecidableEq, Repr

/-- Inputs of a `login()` call: environment, prompt fallbacks, the result of
`_scrape_client_id()` (None on total discovery failure), the `CLIENT_IDS`
list, and the token-endpoint oracle. -/
structure LoginInputs where
  env : Env
  prompts : Prompts
  scraped : Option String
  clientIds : List String
  respond : String → TokenResponse

/-- Result of a `login()` call: the returned token or the raised exception
message, the updated module state, and the logged effects. -/
structure LoginOut where
  res : Except String String
  state : ApiState
  eff : Effects

/-- Result of `fetch_portfolio_history`. -/
structure FetchOut where
  res : Except String HistoryData
  state : ApiState
  eff : Effects

/-- Does `pat` occur at the head of `l`? (character-list matching helper). -/
def leadsWith : List Char → List Char → Bool
  | [], _ => true
  | _ :: _, [] => false
  | p :: ps, c :: cs => p == c && leadsWith ps cs

/-- Does `pat` occur as a contiguous sublist of `l`? -/
def hasSubList : List Char → List Char → Bool
  | [], pat => pat.isEmpty
  | c :: rest, pat => leadsWith pat (c :: rest) || hasSubList rest pat

/-- The Python substring test `pat in s`. -/
def strContains (s pat : String) : Bool :=
  hasSubList s.data pat.data

/-- The marker substring the code looks for in 401 payloads
(src/robinhood_api.py lines 149 and 160). -/
def invalidMark : String := "invalid_client"

/-- Embeds `_load_token` (src/robinhood_api.py lines 31-37): returns the parsed record
when the file exists, parses, and `info.get("expires_at", 0) > time.time()`;
returns `none` when the file is absent or the record is expired. A file that
is unreadable or not valid JSON makes `json.load` / `open` raise — there is no
exception handler — modelled as `Except.error`. -/
def loadToken (file : TokenFileState) (now : Nat) : Except String (Option TokenRecord) :=
  match file with
  | .missing => .ok none
  | .malformed => .error "json.decoder.JSONDecodeError"
  | .stored info => if info.expires_at > now then .ok (some info) else .ok none

/-- Python `os.getenv(name) or input(...)`: the environment value is used only
when present and non-empty (empty strings are falsy), else the prompt value. -/
def pyEnvOr (v : Option String) (fallback : String) : String :=
  match v with
  | some s => if s.isEmpty then fallback else s
  | none => fallback

/-- The form data dict built for one token request (src/robinhood_api.py
lines 125-131). Note the dict has exactly these five fields; no `mfa_code`
field appears anywhere in the module. -/
def tokenRequestData (username password client_id : String) : List (String × String) :=
  [("username", username), ("password", password), ("grant_type", "password"),
   ("scope", "internal"), ("client_id", client_id)]

/-- The `client_id` field of a logged token-request form. -/
def formClientId (form : List (String × String)) : Option String :=
  (form.find? (fun kv => kv.1 == "client_id")).map (fun kv => kv.2)

/-- Merging of a scraped identifier into `CLIENT_IDS` (src/robinhood_api.py
lines 116-118): prepended only when truthy (non-empty) and not already listed. -/
def candidateList (scraped : Option String) (clientIds : List String) : List String :=
  match scraped with
  | some s =>
    if s.isEmpty then clientIds
    else if clientIds.contains s then clientIds else s :: clientIds
  | none => clientIds

/-- Outcome of the candidate loop (src/robinhood_api.py lines 124-162):
in each case `attempted` lists, in order, the candidate identifiers for which
a token request was posted. -/
inductive LoopResult where
  | success (attempted : List String) (token : String) (expires_in : Option Nat)
  | raised (attempted : List String) (msg : String)
  | exhausted (attempted : List String) (lastError : Option String)
deriving DecidableEq, Repr

/-- Record one more (earlier) attempted candidate in a loop outcome. -/
def LoopResult.consAttempt (c : String) : LoopResult → LoopResult
  | .success a t e => .success (c :: a) t e
  | .raised a m => .raised (c :: a) m
  | .exhausted a le => .exhausted (c :: a) le

/-- Record a list of earlier attempted candidates in a loop outcome. -/
def LoopResult.consAll (pre : List String) (r : LoopResult) : LoopResult :=
  pre.foldr (fun c acc => acc.consAttempt c) r

/-- The `for client_id in CLIENT_IDS` loop of `login()` (src/robinhood_api.py
lines 122-162), carrying Python's `last_error` variable. On HTTP 200 the loop
returns the payload. On HTTP 401 with `"invalid_client" in str(error_data)`
the loop continues (note: `last_error` is NOT updated on this path). On any
other 401 the code raises `RuntimeError(f"Authentication failed: 401 {text}")`;
that exception is caught by the surrounding `except` block, which re-raises it
unless its string contains `invalid_client`, in which case it is recorded as
`last_error` and the loop continues. On any other status the message
`f"Login failed: {status} {text}"` is recorded as `last_error` and the loop
continues. -/
def loginLoop (respond : String → TokenResponse) : Option String → List String → LoopResult
  | le, [] => .exhausted [] le
  | le, cid :: rest =>
    match respond cid with
    | .ok tok exp => .success [cid] tok exp
    | .unauthorized errorStr text =>
      if strContains errorStr invalidMark then
        (loginLoop respond le rest).consAttempt cid
      else
        let msg := "Authentication failed: 401 " ++ text
        if strContains msg invalidMark then
          (loginLoop respond (some msg) rest).consAttempt cid
        else
          .raised [cid] msg
    | .other status text =>
      (loginLoop respond (some ("Login failed: " ++ toString status ++ " " ++ text)) rest).consAttempt cid

/-- Python rendering of `last_error` inside the final f-string: `None` when unset. -/
def pyShowOpt : Option String → String
  | none => "None"
  | some s => s

/-- The message of the `RuntimeError` raised when every candidate failed
(src/robinhood_api.py lines 165-169; the three adjacent Python string literals
concatenate). The Python source spells `\\n`, i.e. the message contains a
literal backslash followed by `n`. -/
def exhaustedMsg (lastError : Option String) : String :=
  "All client IDs failed. Last error: " ++
    (pyShowOpt lastError ++
      "\\nThis usually means Robinhood has updated their client ID. You may need to find the current client ID manually.")

/-- Embeds `login()` (src/robinhood_api.py lines 104-169). -/
def login (w : ApiState) (inp : LoginInputs) : LoginOut :=
  match loadToken w.tokenFile w.now with
  | .error e => ⟨.error e, w, noEffects⟩
  | .ok (some info) => ⟨.ok info.access_token, { w with tokenInfo := some info }, noEffects⟩
  | .ok none =>
    let username := pyEnvOr inp.env.rh_username inp.prompts.username
    let password := pyEnvOr inp.env.rh_password inp.prompts.password
    let cids := candidateList inp.scraped inp.clientIds
    match loginLoop inp.respond none cids with
    | .success attempted tok exp =>
      let info : TokenRecord := ⟨tok, w.now + exp.getD 86400⟩
      ⟨.ok tok,
       { w with tokenFile := .stored info, tokenInfo := some info, logoutRegistered := true },
       ⟨true, attempted.map (tokenRequestData username password), []⟩⟩
    | .raised attempted msg =>
      ⟨.error msg, w, ⟨true, attempted.map (tokenRequestData username password), []⟩⟩
    | .exhausted attempted le =>
      ⟨.error (exhaustedMsg le), w, ⟨true, attempted.map (tokenRequestData username password), []⟩⟩

/-- Embeds `ensure_token()` (src/robinhood_api.py lines 171-175). -/
def ensureToken (w : ApiState) (inp : LoginInputs) : LoginOut :=
  match w.tokenInfo with
  | some info =>
    if info.expires_at > w.now then ⟨.ok info.access_token, w, noEffects⟩
    else login w inp
  | none => login w inp

/-- The network part of `fetch_portfolio_history` (src/robinhood_api.py
lines 188-203): issue the authenticated GET; on non-200 raise with status and
body; on 200 write the payload to the cache file for `(span, interval)` (whose
modification time becomes the current time) and return it. -/
def fetchNet (w : ApiState) (eff : Effects) (histRespond : String → String → HistResponse)
    (span interval : String) : FetchOut :=
  let effr : Effects := { eff with historyRequests := eff.historyRequests ++ [(span, interval)] }
  match histRespond span interval with
  | .ok d =>
    ⟨.ok d,
     { w with cache := fun s i => if s = span ∧ i = interval then some (w.now, d) else w.cache s i },
     effr⟩
  | .err status text =>
    ⟨.error ("Failed to fetch history: " ++ toString status ++ " " ++ text), w, effr⟩

/-- Embeds `fetch_portfolio_history(span, interval, refresh)` (src/robinhood_api.py
lines 177-203): obtain a token via `ensure_token`; if the cache file exists,
`refresh` is false, and `time.time() - mtime < 24 * 3600`, return the cached
payload without a network call; otherwise go to the network. -/
def fetchPortfolioHistory (w : ApiState) (inp : LoginInputs)
    (histRespond : String → String → HistResponse)
    (span interval : String) (refresh : Bool) : FetchOut :=
  match ensureToken w inp with
  | ⟨.error e, w1, eff⟩ => ⟨.error e, w1, eff⟩
  | ⟨.ok _token, w1, eff⟩ =>
    match w1.cache span interval with
    | some (mtime, payload) =>
      if refresh = false ∧ w1.now - mtime < 24 * 3600 then ⟨.ok payload, w1, eff⟩
      else fetchNet w1 eff histRespond span interval
    | none => fetchNet w1 eff histRespond span interval

/-- The Python expression
`data.get("equity_historicals") or data.get("historicals") or []`
(src/robinhood_api.py line 207): both a missing key and an empty list are
falsy, so the first present, non-empty list wins. -/
def extractHist (d : HistoryData) : List HistRecord :=
  match d.equity_historicals with
  | some (x :: xs) => x :: xs
  | _ =>
    match d.historicals with
    | some (y :: ys) => y :: ys
    | _ => []

/-- Longest leading run of decimal digits of a character list. -/
def takeDigits : List Char → List Char × List Char
  | [] => ([], [])
  | c :: cs =>
    if c.isDigit then
      let (ds, rest) := takeDigits cs
      (c :: ds, rest)
    else ([], c :: cs)

/-- Value of a digit run. -/
def digitsVal (ds : List Char) : Nat :=
  ds.foldl (fun a c => 10 * a + (c.toNat - 48)) 0

/-- Model of Python `float(s)` on the decimal strings the equity column holds
(optional sign, integer digits, optional fractional digits, value
`intpart.fracpart` read exactly as the rational
`(intpart * 10 ^ k + fracpart) / 10 ^ k`); `none` models the `ValueError`
that `astype(float)` raises on anything else. -/
def parseEquity (s : String) : Option Rat :=
  let cs := s.data
  let (neg, cs1) : Bool × List Char :=
    match cs with
    | '-' :: r => (true, r)
    | _ => (false, cs)
  let (intDs, rest) := takeDigits cs1
  if intDs.isEmpty then none
  else
    match rest with
    | [] =>
      let v : Rat := mkRat (digitsVal intDs) 1
      some (if neg then -v else v)
    | '.' :: fr =>
      let (frDs, rest2) := takeDigits fr
      if rest2.isEmpty && !frDs.isEmpty then
        let v : Rat := mkRat (digitsVal intDs * 10 ^ frDs.length + digitsVal frDs) (10 ^ frDs.length)
        some (if neg then -v else v)
      else none
    | _ => none

/-- Embeds `df["equity"].astype(float)` over the extracted rows: all-or-nothing. -/
def parseColumn : List HistRecord → Option (List Rat)
  | [] => some []
  | r :: rs =>
    match parseEquity r.equity, parseColumn rs with
    | some q, some qs => some (q :: qs)
    | _, _ => none

/-- The DataFrame produced by `portfolio_history_df`: the index (the
`begins_at` timestamps, in row order) and the numeric equity column. -/
structure HistTable where
  index : List Nat
  equity : List Rat
deriving DecidableEq, Repr

/-- The DataFrame-building tail of `portfolio_history_df` (src/robinhood_api.py
lines 208-213): an empty row list yields an empty frame untouched; otherwise
`begins_at` becomes the index and `equity` is converted to float (raising —
`Except.error` — when a value does not parse). -/
def asTableOfData (d : HistoryData) : Except String HistTable :=
  match extractHist d with
  | [] => .ok ⟨[], []⟩
  | r :: rs =>
    match parseColumn (r :: rs) with
    | some qs => .ok ⟨(r :: rs).map HistRecord.begins_at, qs⟩
    | none => .error "ValueError: could not convert string to float"

/-- Result of `portfolio_history_df`. -/
structure TableOut where
  res : Except String HistTable
  state : ApiState
  eff : Effects

/-- Embeds `portfolio_history_df(span, interval, refresh)` (src/robinhood_api.py
lines 205-213). -/
def portfolioHistoryDf (w : ApiState) (inp : LoginInputs)
    (histRespond : String → String → HistResponse)
    (span interval : String) (refresh : Bool) : TableOut :=
  match fetchPortfolioHistory w inp histRespond span interval refresh with
  | ⟨.error e, w1, eff⟩ => ⟨.error e, w1, eff⟩
  | ⟨.ok d, w1, eff⟩ => ⟨asTableOfData d, w1, eff⟩

/-- Is a timestamp list in ascending (chronological) order? -/
def sortedByTime : List Nat → Bool
  | [] => true
  | [_] => true
  | a :: b :: r => a ≤ b && sortedByTime (b :: r)

/-- An `aiohttp.ClientSession` object: `id` models object identity (two
sessions are the same object iff they have the same `id`), `closed` its
`.closed` flag. -/
structure Session where
  id : Nat
  closed : Bool
deriving DecidableEq, Repr

/-- Embeds `_get_session()` (src/robinhood_api.py lines 25-29): the global `SESSION`
is replaced by a fresh open session when it is `None` or closed, and returned.
`freshId` is the identity a newly allocated session would get. -/
def getSession (s : Option Session) (freshId : Nat) : Session × Option Session :=
  match s with
  | none => (⟨freshId, false⟩, some ⟨freshId, false⟩)
  | some sess =>
    if sess.closed then (⟨freshId, false⟩, some ⟨freshId, false⟩)
    else (sess, some sess)

/-! ### Helper lemmas about the substring test and the candidate loop -/

/-- Was the response an HTTP 401 that the code classifies as an invalid
client identifier (`"invalid_client" in str(error_data)`)? -/
def isInvalidClient401 (r : TokenResponse) : Bool :=
  match r with
  | .unauthorized errorStr _ => strContains errorStr invalidMark
  | _ => false

/-- Was the response some status other than 200 and 401? -/
def isOtherStatus (r : TokenResponse) : Bool :=
  match r with
  | .other _ _ => true
  | _ => false

/-- The value of Python's `last_error` variable after the loop has run through
the given candidates without returning, assuming each candidate produced
either an invalid-client 401 (which leaves `last_error` untouched) or a
non-200, non-401 status (which records `Login failed: {status} {text}`). -/
def lastRecordedError (respond : String → TokenResponse) : Option String → List String → Option String
  | le, [] => le
  | le, c :: rest =>
    match respond c with
    | .other status text =>
      lastRecordedError respond (some ("Login failed: " ++ toString status ++ " " ++ text)) rest
    | _ => lastRecordedError respond le rest

theorem leadsWith_self_append (p r : List Char) : leadsWith p (p ++ r) = true := by
  induction p with
  | nil => rfl
  | cons c cs ih => simp [leadsWith, ih]

theorem hasSubList_nil_pat (l : List Char) : hasSubList l [] = true := by
  cases l with
  | nil => rfl
  | cons c cs => simp [hasSubList, leadsWith]

theorem hasSubList_self_append (p r : List Char) : hasSubList (p ++ r) p = true := by
  cases p with
  | nil => exact hasSubList_nil_pat r
  | cons c cs =>
    have h := leadsWith_self_append (c :: cs) r
    simp only [List.cons_append] at h
    simp [hasSubList, h]

theorem hasSubList_append_left (a b pat : List Char) (h : hasSubList b pat = true) :
    hasSubList (a ++ b) pat = true := by
  induction a with
  | nil => simpa using h
  | cons c cs ih => simp [hasSubList, ih]

/-- A pattern occurring in `b` occurs in `a ++ b`. -/
theorem strContains_append_right (a b pat : String) (h : strContains b pat = true) :
    strContains (a ++ b) pat = true :=
  hasSubList_append_left a.data b.data pat.data h

/-- A string occurs in itself followed by anything. -/
theorem strContains_self_append (p r : String) : strContains (p ++ r) p = true :=
  hasSubList_self_append p.data r.data

/-- The fixed message prefix `Authentication failed: 401 ` cannot create an
occurrence of `invalid_client`: every alignment fails inside the prefix, so
the exception string contains the marker iff the response body does. -/
theorem authMsg_contains (t : String) :
    strContains ("Authentication failed: 401 " ++ t) invalidMark = strContains t invalidMark := rfl

theorem loginLoop_cons_invalid (respond : String → TokenResponse) (le : Option String)
    (c : String) (rest : List String) (h : isInvalidClient401 (respond c) = true) :
    loginLoop respond le (c :: rest) = (loginLoop respond le rest).consAttempt c := by
  unfold isInvalidClient401 at h
  match hr : respond c with
  | .ok tok exp => rw [hr] at h; exact absurd h (by simp)
  | .other status text => rw [hr] at h; exact absurd h (by simp)
  | .unauthorized e t =>
    rw [hr] at h
    simp only at h
    simp [loginLoop, hr, h]

theorem consAll_cons (pre : List String) (c : String) (r : LoopResult) :
    LoopResult.consAll (c :: pre) r = (LoopResult.consAll pre r).consAttempt c := rfl

theorem loginLoop_append_invalid (respond : String → TokenResponse) (le : Option String)
    (pre rest : List String) (h : ∀ c ∈ pre, isInvalidClient401 (respond c) = true) :
    loginLoop respond le (pre ++ rest) = (loginLoop respond le rest).consAll pre := by
  induction pre with
  | nil => simp [LoopResult.consAll]
  | cons c cs ih =>
    rw [List.cons_append,
      loginLoop_cons_invalid respond le c (cs ++ rest) (h c (List.mem_cons_self c cs)),
      ih (fun x hx => h x (List.mem_cons_of_mem c hx)), consAll_cons]

theorem consAll_success (pre a : List String) (t : String) (e : Option Nat) :
    LoopResult.consAll pre (.success a t e) = .success (pre ++ a) t e := by
  induction pre with
  | nil => rfl
  | cons c cs ih => rw [consAll_cons, ih]; rfl

theorem consAll_raised (pre a : List String) (m : String) :
    LoopResult.consAll pre (.raised a m) = .raised (pre ++ a) m := by
  induction pre with
  | nil => rfl
  | cons c cs ih => rw [consAll_cons, ih]; rfl

theorem consAll_exhausted (pre a : List String) (le : Option String) :
    LoopResult.consAll pre (.exhausted a le) = .exhausted (pre ++ a) le := by
  induction pre with
  | nil => rfl
  | cons c cs ih => rw [consAll_cons, ih]; rfl

/-- When every candidate fails with either an invalid-client 401 or a
non-200, non-401 status, the loop exhausts all candidates, attempting each in
order, and ends with the `last_error` described by `lastRecordedError`. -/
theorem loginLoop_all_fail (respond : String → TokenResponse) (le : Option String)
    (cids : List String)
    (h : ∀ c ∈ cids, isInvalidClient401 (respond c) = true ∨ isOtherStatus (respond c) = true) :
    loginLoop respond le cids = .exhausted cids (lastRecordedError respond le cids) := by
  induction cids generalizing le with
  | nil => rfl
  | cons c rest ih =>
    rcases h c (List.mem_cons_self c rest) with h1 | h2
    · rw [loginLoop_cons_invalid respond le c rest h1,
        ih le (fun x hx => h x (List.mem_cons_of_mem c hx))]
      unfold isInvalidClient401 at h1
      match hr : respond c with
      | .ok tok exp => rw [hr] at h1; exact absurd h1 (by simp)
      | .other status text => rw [hr] at h1; exact absurd h1 (by simp)
      | .unauthorized e t => simp [LoopResult.consAttempt, lastRecordedError, hr]
    · unfold isOtherStatus at h2
      match hr : respond c with
      | .ok tok exp => rw [hr] at h2; exact absurd h2 (by simp)
      | .unauthorized e t => rw [hr] at h2; exact absurd h2 (by simp)
      | .other status text =>
        simp only [loginLoop, hr,
          ih (some ("Login failed: " ++ toString status ++ " " ++ text))
            (fun x hx => h x (List.mem_cons_of_mem c hx)),
          LoopResult.consAttempt, lastRecordedError]

theorem formClientId_tokenRequestData (u p c : String) :
    formClientId (tokenRequestData u p c) = some c := rfl

theorem formClientId_map (u p : String) (l : List String) :
    (l.map (tokenRequestData u p)).map formClientId = l.map some := by
  induction l with
  | nil => rfl
  | cons c cs ih => simp only [List.map_cons, ih, formClientId_tokenRequestData]

/-! ### Claim C1 -/

/-- C1: for every persisted token record whose `expires_at` is strictly
greater than the current time, `login()` returns that record's `access_token`
immediately, sets the in-memory token cache (`TOKEN_INFO`) to that record, and
performs no I/O at all: no token request, no history request, and no
identifier discovery. -/
theorem token_reuse_no_network (w : ApiState) (inp : LoginInputs) (info : TokenRecord)
    (hfile : w.tokenFile = .stored info) (hvalid : w.now < info.expires_at) :
    login w inp = ⟨.ok info.access_token, { w with tokenInfo := some info }, noEffects⟩ := by
  unfold login loadToken
  rw [hfile]
  simp [hvalid]

/-- Witness for C1 at a concrete state: a stored record `("tok", 50)` with the
clock at 10. -/
theorem token_reuse_no_network_witness :
    login ⟨.stored ⟨"tok", 50⟩, none, false, fun _ _ => none, 10⟩
        ⟨⟨none, none, none⟩, ⟨"u", "p"⟩, none, ["A"], fun _ => .other 500 "boom"⟩ =
      ⟨.ok "tok",
       { (⟨.stored ⟨"tok", 50⟩, none, false, fun _ _ => none, 10⟩ : ApiState) with
          tokenInfo := some ⟨"tok", 50⟩ },
       noEffects⟩ :=
  token_reuse_no_network _ _ ⟨"tok", 50⟩ rfl (by decide)

/-! ### Claim C2 -/

/-- C2 counterexample: with a malformed (unparseable) token file, `_load_token`
does NOT yield the `no valid record` result — `json.load` raises, there is no
exception handler, and `login()` propagates the error without ever proceeding
to authenticate (no credential collection, no identifier discovery, no token
request). This refutes the claim that a malformed store is treated as "no
valid record" and never as a fatal error. -/
theorem malformed_store_cex :
    loadToken .malformed 0 = .error "json.decoder.JSONDecodeError" ∧
    (login ⟨.malformed, none, false, fun _ _ => none, 0⟩
        ⟨⟨some "u", some "p", none⟩, ⟨"u", "p"⟩, none, ["A"], fun _ => .ok "tok" none⟩).res =
      .error "json.decoder.JSONDecodeError" ∧
    (login ⟨.malformed, none, false, fun _ _ => none, 0⟩
        ⟨⟨some "u", some "p", none⟩, ⟨"u", "p"⟩, none, ["A"], fun _ => .ok "tok" none⟩).eff =
      noEffects := by
  refine ⟨rfl, rfl, rfl⟩

/-- C2 (amended): a missing token file, or one holding an expired record, is
treated as "no valid record" and `login()` proceeds to authenticate; but a
malformed or unreadable store makes `login()` raise the underlying parse
error fatally, issuing no token request and leaving the state untouched. -/
theorem malformed_store_raises (w : ApiState) (inp : LoginInputs)
    (h : w.tokenFile = .malformed) :
    (login w inp).res = .error "json.decoder.JSONDecodeError" ∧
    (login w inp).eff = noEffects ∧
    (login w inp).state = w := by
  unfold login loadToken
  rw [h]
  exact ⟨rfl, rfl, rfl⟩

/-- Witness for C2's amended theorem at a concrete malformed store. -/
theorem malformed_store_raises_witness :
    (login ⟨.malformed, none, true, fun _ _ => none, 7⟩
        ⟨⟨none, none, none⟩, ⟨"u", "p"⟩, none, [], fun _ => .other 500 "x"⟩).res =
      .error "json.decoder.JSONDecodeError" ∧
    (login ⟨.malformed, none, true, fun _ _ => none, 7⟩
        ⟨⟨none, none, none⟩, ⟨"u", "p"⟩, none, [], fun _ => .other 500 "x"⟩).eff =
      noEffects ∧
    (login ⟨.malformed, none, true, fun _ _ => none, 7⟩
        ⟨⟨none, none, none⟩, ⟨"u", "p"⟩, none, [], fun _ => .other 500 "x"⟩).state =
      ⟨.malformed, none, true, fun _ _ => none, 7⟩ :=
  malformed_store_raises _ _ rfl

/-! ### Claim C3 -/

/-- C3 counterexample: with `RH_MFA` present in the environment, `login()`
still submits a token request whose form data consists of exactly
`username, password, grant_type, scope, client_id` — no `mfa_code` field —
and succeeds without ever consulting `RH_MFA`. The module contains no MFA
handling at all, refuting the claim that `RH_MFA` replaces an interactive
one-time-code prompt and that `mfa_code` is sent. -/
theorem mfa_ignored_cex :
    (login ⟨.missing, none, false, fun _ _ => none, 0⟩
        ⟨⟨some "u", some "p", some "123456"⟩, ⟨"x", "y"⟩, none, ["A"],
         fun _ => .ok "tok" (some 10)⟩).eff.tokenRequests =
      [[("username", "u"), ("password", "p"), ("grant_type", "password"),
        ("scope", "internal"), ("client_id", "A")]] ∧
    ([("username", "u"), ("password", "p"), ("grant_type", "password"),
        ("scope", "internal"), ("client_id", "A")].map Prod.fst).contains "mfa_code" = false ∧
    (login ⟨.missing, none, false, fun _ _ => none, 0⟩
        ⟨⟨some "u", some "p", some "123456"⟩, ⟨"x", "y"⟩, none, ["A"],
         fun _ => .ok "tok" (some 10)⟩).res = .ok "tok" := by
  refine ⟨rfl, by decide, rfl⟩

/-- C3 (amended): `login()` never consults `RH_MFA`: its entire outcome is
independent of that environment variable, and every token request it submits
carries exactly the form fields `username, password, grant_type, scope,
client_id` — never `mfa_code`. -/
theorem mfa_never_consulted (w : ApiState) (inp : LoginInputs) (m : Option String) :
    login w { inp with env := { inp.env with rh_mfa := m } } =
      login w { inp with env := { inp.env with rh_mfa := none } } ∧
    ∀ form ∈ (login w inp).eff.tokenRequests,
      form.map Prod.fst = ["username", "password", "grant_type", "scope", "client_id"] := by
  constructor
  · rfl
  · intro form hform
    unfold login at hform
    match hl : loadToken w.tokenFile w.now with
    | .error e => rw [hl] at hform; simp [noEffects] at hform
    | .ok (some info) => rw [hl] at hform; simp [noEffects] at hform
    | .ok none =>
      rw [hl] at hform
      simp only at hform
      have keyshape : ∀ (u p : String) (l : List String),
          form ∈ l.map (tokenRequestData u p) →
          form.map Prod.fst = ["username", "password", "grant_type", "scope", "client_id"] := by
        intro u p l hmem
        rcases List.mem_map.mp hmem with ⟨c, _, rfl⟩
        rfl
      match hloop : loginLoop inp.respond none (candidateList inp.scraped inp.clientIds) with
      | .success attempted tok exp =>
        rw [hloop] at hform; exact keyshape _ _ _ hform
      | .raised attempted msg =>
        rw [hloop] at hform; exact keyshape _ _ _ hform
      | .exhausted attempted le =>
        rw [hloop] at hform; exact keyshape _ _ _ hform

/-- Witness for C3's amended theorem: concrete instantiation with
`RH_MFA = "999"` and a single request whose keys are checked. -/
theorem mfa_never_consulted_witness :
    login ⟨.missing, none, false, fun _ _ => none, 0⟩
        ⟨⟨some "u", some "p", some "999"⟩, ⟨"x", "y"⟩, none, ["A"], fun _ => .ok "tok" none⟩ =
      login ⟨.missing, none, false, fun _ _ => none, 0⟩
        ⟨⟨some "u", some "p", none⟩, ⟨"x", "y"⟩, none, ["A"], fun _ => .ok "tok" none⟩ ∧
    (tokenRequestData "u" "p" "A").map Prod.fst =
      ["username", "password", "grant_type", "scope", "client_id"] := by
  refine ⟨?_, ?_⟩
  · exact (mfa_never_consulted ⟨.missing, none, false, fun _ _ => none, 0⟩
      ⟨⟨some "u", some "p", none⟩, ⟨"x", "y"⟩, none, ["A"], fun _ => .ok "tok" none⟩
      (some "999")).1
  · exact (mfa_never_consulted ⟨.missing, none, false, fun _ _ => none, 0⟩
      ⟨⟨some "u", some "p", some "999"⟩, ⟨"x", "y"⟩, none, ["A"], fun _ => .ok "tok" none⟩
      (some "999")).2 (tokenRequestData "u" "p" "A") (by decide)

/-! ### Claim C4 -/

/-- Shared shape of a `login()` run that skips a block of invalid-client
candidates and then succeeds: used by the C4 and C10 theorems. -/
theorem login_fallback_shape (w : ApiState) (inp : LoginInputs) (pre : List String)
    (lastC tok : String) (exp : Option Nat)
    (hload : loadToken w.tokenFile w.now = .ok none)
    (hcands : candidateList inp.scraped inp.clientIds = pre ++ [lastC])
    (hpre : ∀ c ∈ pre, isInvalidClient401 (inp.respond c) = true)
    (hlast : inp.respond lastC = .ok tok exp) :
    (login w inp).res = .ok tok ∧
    (login w inp).eff.tokenRequests.map formClientId = (pre ++ [lastC]).map some ∧
    (login w inp).state.tokenFile = .stored ⟨tok, w.now + exp.getD 86400⟩ ∧
    (login w inp).state.tokenInfo = some ⟨tok, w.now + exp.getD 86400⟩ := by
  have hloop : loginLoop inp.respond none (pre ++ [lastC]) = .success (pre ++ [lastC]) tok exp := by
    rw [loginLoop_append_invalid inp.respond none pre [lastC] hpre]
    simp [loginLoop, hlast, consAll_success]
  unfold login
  rw [hload]
  simp only
  rw [hcands, hloop]
  refine ⟨rfl, ?_, rfl, rfl⟩
  exact formClientId_map _ _ _

/-- C4: for a candidate list whose first N-1 identifiers each draw an HTTP 401
classified as `invalid_client` and whose last identifier draws HTTP 200 with a
token payload, `login()` returns the last candidate's `access_token`, submits
exactly one token request per candidate in list order (N requests total), and
persists the resulting token record both to the token file and to the
in-memory cache. -/
theorem identifier_fallback (w : ApiState) (inp : LoginInputs) (pre : List String)
    (lastC tok : String) (exp : Option Nat)
    (hload : loadToken w.tokenFile w.now = .ok none)
    (hcands : candidateList inp.scraped inp.clientIds = pre ++ [lastC])
    (hpre : ∀ c ∈ pre, isInvalidClient401 (inp.respond c) = true)
    (hlast : inp.respond lastC = .ok tok exp) :
    (login w inp).res = .ok tok ∧
    (login w inp).eff.tokenRequests.map formClientId = (pre ++ [lastC]).map some ∧
    (login w inp).state.tokenFile = .stored ⟨tok, w.now + exp.getD 86400⟩ ∧
    (login w inp).state.tokenInfo = some ⟨tok, w.now + exp.getD 86400⟩ :=
  login_fallback_shape w inp pre lastC tok exp hload hcands hpre hlast

/-- Witness for C4: the spec's own scenario — candidates `A`, `B`, `C`, where
`A` and `B` draw invalid-client 401s and `C` succeeds with token `tok1` and
`expires_in = 10`. -/
theorem identifier_fallback_witness :
    (login ⟨.missing, none, false, fun _ _ => none, 1000⟩
        ⟨⟨some "u", some "p", none⟩, ⟨"u", "p"⟩, none, ["A", "B", "C"],
         fun c => if c = "C" then .ok "tok1" (some 10)
           else .unauthorized "error detail invalid_client" "body"⟩).res = .ok "tok1" ∧
    (login ⟨.missing, none, false, fun _ _ => none, 1000⟩
        ⟨⟨some "u", some "p", none⟩, ⟨"u", "p"⟩, none, ["A", "B", "C"],
         fun c => if c = "C" then .ok "tok1" (some 10)
           else .unauthorized "error detail invalid_client" "body"⟩).eff.tokenRequests.map formClientId =
      [some "A", some "B", some "C"] ∧
    (login ⟨.missing, none, false, fun _ _ => none, 1000⟩
        ⟨⟨some "u", some "p", none⟩, ⟨"u", "p"⟩, none, ["A", "B", "C"],
         fun c => if c = "C" then .ok "tok1" (some 10)
           else .unauthorized "error detail invalid_client" "body"⟩).state.tokenFile =
      .stored ⟨"tok1", 1010⟩ ∧
    (login ⟨.missing, none, false, fun _ _ => none, 1000⟩
        ⟨⟨some "u", some "p", none⟩, ⟨"u", "p"⟩, none, ["A", "B", "C"],
         fun c => if c = "C" then .ok "tok1" (some 10)
           else .unauthorized "error detail invalid_client" "body"⟩).state.tokenInfo =
      some ⟨"tok1", 1010⟩ :=
  identifier_fallback _ _ ["A", "B"] "C" "tok1" (some 10) rfl rfl (by decide) (by decide)

/-! ### Claim C5 -/

/-- C5: when a candidate draws an HTTP 401 whose error payload is not
classified as `invalid_client`, `login()` raises
`Authentication failed: 401 {body}` at once and submits no token request for
any later candidate: the attempted candidates are exactly those up to and
including the offending one. The two `strContains … = false` hypotheses say
the payload is not classified as invalid-client: the loop's classification
inspects `str(error_data)` and the re-raise check inspects the raw body; for a
401 body that parses as JSON, the raw text can only contain the marker when
its parsed string form does, so together they state exactly "not classified". -/
theorem non_identifier_401_short_circuits (w : ApiState) (inp : LoginInputs)
    (pre post : List String) (bad e t : String)
    (hload : loadToken w.tokenFile w.now = .ok none)
    (hcands : candidateList inp.scraped inp.clientIds = pre ++ bad :: post)
    (hpre : ∀ c ∈ pre, isInvalidClient401 (inp.respond c) = true)
    (hbad : inp.respond bad = .unauthorized e t)
    (hE : strContains e invalidMark = false)
    (hT : strContains t invalidMark = false) :
    (login w inp).res = .error ("Authentication failed: 401 " ++ t) ∧
    (login w inp).eff.tokenRequests.map formClientId = (pre ++ [bad]).map some := by
  have hmsg : strContains ("Authentication failed: 401 " ++ t) invalidMark = false := by
    rw [authMsg_contains]; exact hT
  have hloop : loginLoop inp.respond none (pre ++ bad :: post) =
      .raised (pre ++ [bad]) ("Authentication failed: 401 " ++ t) := by
    rw [loginLoop_append_invalid inp.respond none pre (bad :: post) hpre]
    simp [loginLoop, hbad, hE, hmsg, consAll_raised]
  unfold login
  rw [hload]
  simp only
  rw [hcands, hloop]
  exact ⟨rfl, formClientId_map _ _ _⟩

/-- Witness for C5: first candidate `A` draws an invalid-client 401, second
candidate `B` draws a credentials 401; candidate `D` afterwards is never
tried. -/
theorem non_identifier_401_short_circuits_witness :
    (login ⟨.missing, none, false, fun _ _ => none, 0⟩
        ⟨⟨some "u", some "p", none⟩, ⟨"u", "p"⟩, none, ["A", "B", "D"],
         fun c => if c = "A" then .unauthorized "error detail invalid_client" "body"
           else .unauthorized "detail unable to log in with provided credentials"
             "detail unable to log in with provided credentials"⟩).res =
      .error "Authentication failed: 401 detail unable to log in with provided credentials" ∧
    (login ⟨.missing, none, false, fun _ _ => none, 0⟩
        ⟨⟨some "u", some "p", none⟩, ⟨"u", "p"⟩, none, ["A", "B", "D"],
         fun c => if c = "A" then .unauthorized "error detail invalid_client" "body"
           else .unauthorized "detail unable to log in with provided credentials"
             "detail unable to log in with provided credentials"⟩).eff.tokenRequests.map formClientId =
      [some "A", some "B"] :=
  non_identifier_401_short_circuits _ _ ["A"] ["D"] "B"
    "detail unable to log in with provided credentials"
    "detail unable to log in with provided credentials"
    rfl rfl (by decide) (by decide) (by decide) (by decide)

/-! ### Claim C7 -/

/-- C7 counterexample: a single candidate draws a 401 whose payload string is
`error detail invalid_client` (classified as invalid-client, so the loop
records nothing and moves on); `login()` then raises the exhaustion error, but
its message reads `Last error: None` — it does not include the observed error:
the message does not even contain the substring `invalid_client`, let alone
the 401's payload. This refutes the claim that the final error always includes
the last observed error. -/
theorem exhausted_message_cex :
    (login ⟨.missing, none, false, fun _ _ => none, 0⟩
        ⟨⟨some "u", some "p", none⟩, ⟨"u", "p"⟩, none, ["A"],
         fun _ => .unauthorized "error detail invalid_client" "error detail invalid_client"⟩).res =
      .error (exhaustedMsg none) ∧
    strContains (exhaustedMsg none) "invalid_client" = false ∧
    strContains (exhaustedMsg none) "error detail" = false := by
  refine ⟨rfl, by decide, by decide⟩

/-- C7 (amended): when every candidate fails with either an invalid-client 401
or some other non-200, non-401 status, `login()` attempts each candidate in
order and raises an error whose message names likely client-identifier
rotation ("Robinhood has updated their client ID") and includes the
`last_error` the loop recorded — which is the most recent `Login failed:
{status} {text}` from a non-200, non-401 response; invalid-client 401s record
nothing, so when every candidate failed that way the message reports `None`
instead of any observed error. -/
theorem all_candidates_exhausted (w : ApiState) (inp : LoginInputs) (cids : List String)
    (hload : loadToken w.tokenFile w.now = .ok none)
    (hcands : candidateList inp.scraped inp.clientIds = cids)
    (hall : ∀ c ∈ cids,
      isInvalidClient401 (inp.respond c) = true ∨ isOtherStatus (inp.respond c) = true) :
    (login w inp).res = .error (exhaustedMsg (lastRecordedError inp.respond none cids)) ∧
    strContains (exhaustedMsg (lastRecordedError inp.respond none cids))
      "updated their client ID" = true ∧
    (∀ s, lastRecordedError inp.respond none cids = some s →
      strContains (exhaustedMsg (lastRecordedError inp.respond none cids)) s = true) ∧
    (login w inp).eff.tokenRequests.map formClientId = cids.map some := by
  have hloop := loginLoop_all_fail inp.respond none cids hall
  unfold login
  rw [hload]
  simp only
  rw [hcands, hloop]
  refine ⟨rfl, ?_, ?_, formClientId_map _ _ _⟩
  · unfold exhaustedMsg
    refine strContains_append_right _ _ _ (strContains_append_right _ _ _ ?_)
    decide
  · intro s hs
    rw [hs]
    unfold exhaustedMsg pyShowOpt
    exact strContains_append_right _ _ _ (strContains_self_append _ _)

/-- Witness for C7's amended theorem: candidates `A` (invalid-client 401) and
`B` (HTTP 500); the message surfaces `Login failed: 500 oops`. -/
theorem all_candidates_exhausted_witness :
    (login ⟨.missing, none, false, fun _ _ => none, 0⟩
        ⟨⟨some "u", some "p", none⟩, ⟨"u", "p"⟩, none, ["A", "B"],
         fun c => if c = "A" then .unauthorized "error detail invalid_client" "body"
           else .other 500 "oops"⟩).res =
      .error (exhaustedMsg (lastRecordedError
        (fun c => if c = "A" then .unauthorized "error detail invalid_client" "body"
          else .other 500 "oops") none ["A", "B"])) ∧
    strContains (exhaustedMsg (lastRecordedError
        (fun c => if c = "A" then .unauthorized "error detail invalid_client" "body"
          else .other 500 "oops") none ["A", "B"])) "updated their client ID" = true ∧
    strContains (exhaustedMsg (lastRecordedError
        (fun c => if c = "A" then .unauthorized "error detail invalid_client" "body"
          else .other 500 "oops") none ["A", "B"])) "Login failed: 500 oops" = true ∧
    (login ⟨.missing, none, false, fun _ _ => none, 0⟩
        ⟨⟨some "u", some "p", none⟩, ⟨"u", "p"⟩, none, ["A", "B"],
         fun c => if c = "A" then .unauthorized "error detail invalid_client" "body"
           else .other 500 "oops"⟩).eff.tokenRequests.map formClientId =
      [some "A", some "B"] := by
  have H := all_candidates_exhausted ⟨.missing, none, false, fun _ _ => none, 0⟩
    ⟨⟨some "u", some "p", none⟩, ⟨"u", "p"⟩, none, ["A", "B"],
     fun c => if c = "A" then .unauthorized "error detail invalid_client" "body"
       else .other 500 "oops"⟩ ["A", "B"] rfl rfl (by decide)
  exact ⟨H.1, H.2.1, H.2.2.1 "Login failed: 500 oops" (by decide), H.2.2.2⟩

/-! ### Claim C10 -/

/-- C10: when the winning token response's payload lacks `expires_in`,
`login()` uses the default lifetime 86400 seconds: both the persisted record
and the in-memory record carry `expires_at = login time + 86400`. -/
theorem default_token_lifetime (w : ApiState) (inp : LoginInputs) (pre : List String)
    (c tok : String)
    (hload : loadToken w.tokenFile w.now = .ok none)
    (hcands : candidateList inp.scraped inp.clientIds = pre ++ [c])
    (hpre : ∀ x ∈ pre, isInvalidClient401 (inp.respond x) = true)
    (hc : inp.respond c = .ok tok none) :
    (login w inp).res = .ok tok ∧
    (login w inp).state.tokenInfo = some ⟨tok, w.now + 86400⟩ ∧
    (login w inp).state.tokenFile = .stored ⟨tok, w.now + 86400⟩ := by
  have H := login_fallback_shape w inp pre c tok none hload hcands hpre hc
  exact ⟨H.1, H.2.2.2, H.2.2.1⟩

/-- Witness for C10: a single candidate succeeding with a payload that lacks
`expires_in`, at login time 1000. -/
theorem default_token_lifetime_witness :
    (login ⟨.missing, none, false, fun _ _ => none, 1000⟩
        ⟨⟨some "u", some "p", none⟩, ⟨"u", "p"⟩, none, ["A"], fun _ => .ok "tok" none⟩).res =
      .ok "tok" ∧
    (login ⟨.missing, none, false, fun _ _ => none, 1000⟩
        ⟨⟨some "u", some "p", none⟩, ⟨"u", "p"⟩, none, ["A"], fun _ => .ok "tok" none⟩).state.tokenInfo =
      some ⟨"tok", 87400⟩ ∧
    (login ⟨.missing, none, false, fun _ _ => none, 1000⟩
        ⟨⟨some "u", some "p", none⟩, ⟨"u", "p"⟩, none, ["A"], fun _ => .ok "tok" none⟩).state.tokenFile =
      .stored ⟨"tok", 87400⟩ :=
  default_token_lifetime _ _ [] "A" "tok" rfl rfl (by decide) (by decide)

/-! ### Claim C6 -/

/-- With a valid in-memory token, `ensure_token()` returns it and does nothing
else. -/
theorem ensureToken_cached (w : ApiState) (inp : LoginInputs) (r : TokenRecord)
    (htok : w.tokenInfo = some r) (hv : w.now < r.expires_at) :
    ensureToken w inp = ⟨.ok r.access_token, w, noEffects⟩ := by
  unfold ensureToken
  rw [htok]
  simp [hv]

/-- C6: with a valid in-memory token, (a) if a cache entry for
`(span, interval)` exists with age under 24 hours and `refresh` is false,
`fetch` returns the cached payload with no network request of any kind;
(b) starting cold, two `fetch(span, interval, refresh=False)` calls within
the freshness window issue exactly one network request in total — the first
call issues it and the second is served from the cache written by the first —
and (c) passing `refresh=True` on the second call issues a second request
regardless of cache freshness. -/
theorem cache_hit_avoids_network (w : ApiState) (inp : LoginInputs)
    (hr : String → String → HistResponse) (span interval : String) (r : TokenRecord)
    (htok : w.tokenInfo = some r) (hvalid : w.now < r.expires_at) :
    (∀ mt payload, w.cache span interval = some (mt, payload) → w.now - mt < 24 * 3600 →
      (fetchPortfolioHistory w inp hr span interval false).res = .ok payload ∧
      (fetchPortfolioHistory w inp hr span interval false).eff = noEffects) ∧
    (∀ d, w.cache span interval = none → hr span interval = .ok d →
      (fetchPortfolioHistory w inp hr span interval false).res = .ok d ∧
      (fetchPortfolioHistory w inp hr span interval false).eff.historyRequests = [(span, interval)] ∧
      (fetchPortfolioHistory w inp hr span interval false).eff.tokenRequests = [] ∧
      ∀ n2, n2 < r.expires_at → n2 - w.now < 24 * 3600 →
        (fetchPortfolioHistory
            { (fetchPortfolioHistory w inp hr span interval false).state with now := n2 }
            inp hr span interval false).res = .ok d ∧
        (fetchPortfolioHistory
            { (fetchPortfolioHistory w inp hr span interval false).state with now := n2 }
            inp hr span interval false).eff.historyRequests = [] ∧
        (fetchPortfolioHistory
            { (fetchPortfolioHistory w inp hr span interval false).state with now := n2 }
            inp hr span interval true).eff.historyRequests = [(span, interval)]) := by
  have het := ensureToken_cached w inp r htok hvalid
  constructor
  · intro mt payload hc hfresh
    simp only [fetchPortfolioHistory, het, hc]
    simp [hfresh]
  · intro d hc hresp
    have h1 : fetchPortfolioHistory w inp hr span interval false =
        ⟨.ok d,
         { w with cache := fun s i => if s = span ∧ i = interval then some (w.now, d) else w.cache s i },
         ⟨false, [], [(span, interval)]⟩⟩ := by
      simp only [fetchPortfolioHistory, het, hc, fetchNet, hresp]
      rfl
    refine ⟨by rw [h1], by rw [h1], by rw [h1], ?_⟩
    intro n2 hn2 hwin
    rw [h1]
    have het2 : ensureToken
        ⟨w.tokenFile, w.tokenInfo, w.logoutRegistered,
         fun s i => if s = span ∧ i = interval then some (w.now, d) else w.cache s i, n2⟩ inp =
        ⟨.ok r.access_token,
         ⟨w.tokenFile, w.tokenInfo, w.logoutRegistered,
          fun s i => if s = span ∧ i = interval then some (w.now, d) else w.cache s i, n2⟩,
         noEffects⟩ :=
      ensureToken_cached _ inp r htok hn2
    refine ⟨?_, ?_, ?_⟩
    · simp only [fetchPortfolioHistory, het2]
      simp [hwin]
    · simp only [fetchPortfolioHistory, het2]
      simp [hwin, noEffects]
    · simp only [fetchPortfolioHistory, het2]
      simp [fetchNet, noEffects]
      cases hr span interval <;> rfl

/-- Witness for C6 at concrete inputs: a cold cache exercised through parts
(b) and (c) of the theorem, and a pre-warmed cache exercising part (a). -/
theorem cache_hit_avoids_network_witness :
    ((fetchPortfolioHistory ⟨.missing, some ⟨"tok", 100⟩, false, fun _ _ => none, 10⟩
        ⟨⟨none, none, none⟩, ⟨"u", "p"⟩, none, [], fun _ => .other 500 "x"⟩
        (fun _ _ => .ok ⟨none, some [⟨1, "1"⟩]⟩) "year" "day" false).res =
      .ok ⟨none, some [⟨1, "1"⟩]⟩ ∧
    (fetchPortfolioHistory ⟨.missing, some ⟨"tok", 100⟩, false, fun _ _ => none, 10⟩
        ⟨⟨none, none, none⟩, ⟨"u", "p"⟩, none, [], fun _ => .other 500 "x"⟩
        (fun _ _ => .ok ⟨none, some [⟨1, "1"⟩]⟩) "year" "day" false).eff.historyRequests =
      [("year", "day")] ∧
    (fetchPortfolioHistory
        { (fetchPortfolioHistory ⟨.missing, some ⟨"tok", 100⟩, false, fun _ _ => none, 10⟩
            ⟨⟨none, none, none⟩, ⟨"u", "p"⟩, none, [], fun _ => .other 500 "x"⟩
            (fun _ _ => .ok ⟨none, some [⟨1, "1"⟩]⟩) "year" "day" false).state with now := 20 }
        ⟨⟨none, none, none⟩, ⟨"u", "p"⟩, none, [], fun _ => .other 500 "x"⟩
        (fun _ _ => .ok ⟨none, some [⟨1, "1"⟩]⟩) "year" "day" false).eff.historyRequests = [] ∧
    (fetchPortfolioHistory
        { (fetchPortfolioHistory ⟨.missing, some ⟨"tok", 100⟩, false, fun _ _ => none, 10⟩
            ⟨⟨none, none, none⟩, ⟨"u", "p"⟩, none, [], fun _ => .other 500 "x"⟩
            (fun _ _ => .ok ⟨none, some [⟨1, "1"⟩]⟩) "year" "day" false).state with now := 20 }
        ⟨⟨none, none, none⟩, ⟨"u", "p"⟩, none, [], fun _ => .other 500 "x"⟩
        (fun _ _ => .ok ⟨none, some [⟨1, "1"⟩]⟩) "year" "day" true).eff.historyRequests =
      [("year", "day")]) ∧
    ((fetchPortfolioHistory
        ⟨.missing, some ⟨"tok", 100⟩, false,
         (fun s i => if s = "year" ∧ i = "day" then some (5, ⟨none, some [⟨2, "2"⟩]⟩) else none), 10⟩
        ⟨⟨none, none, none⟩, ⟨"u", "p"⟩, none, [], fun _ => .other 500 "x"⟩
        (fun _ _ => .err 500 "down") "year" "day" false).res = .ok ⟨none, some [⟨2, "2"⟩]⟩ ∧
    (fetchPortfolioHistory
        ⟨.missing, some ⟨"tok", 100⟩, false,
         (fun s i => if s = "year" ∧ i = "day" then some (5, ⟨none, some [⟨2, "2"⟩]⟩) else none), 10⟩
        ⟨⟨none, none, none⟩, ⟨"u", "p"⟩, none, [], fun _ => .other 500 "x"⟩
        (fun _ _ => .err 500 "down") "year" "day" false).eff = noEffects) := by
  constructor
  · have H := (cache_hit_avoids_network ⟨.missing, some ⟨"tok", 100⟩, false, fun _ _ => none, 10⟩
      ⟨⟨none, none, none⟩, ⟨"u", "p"⟩, none, [], fun _ => .other 500 "x"⟩
      (fun _ _ => .ok ⟨none, some [⟨1, "1"⟩]⟩) "year" "day" ⟨"tok", 100⟩ rfl (by decide)).2
      ⟨none, some [⟨1, "1"⟩]⟩ rfl rfl
    have H2 := H.2.2.2 20 (by decide) (by decide)
    exact ⟨H.1, H.2.1, H2.2.1, H2.2.2⟩
  · have H := (cache_hit_avoids_network
      ⟨.missing, some ⟨"tok", 100⟩, false,
       (fun s i => if s = "year" ∧ i = "day" then some (5, ⟨none, some [⟨2, "2"⟩]⟩) else none), 10⟩
      ⟨⟨none, none, none⟩, ⟨"u", "p"⟩, none, [], fun _ => .other 500 "x"⟩
      (fun _ _ => .err 500 "down") "year" "day" ⟨"tok", 100⟩ rfl (by decide)).1
      5 ⟨none, some [⟨2, "2"⟩]⟩ (by simp) (by decide)
    exact H

/-! ### Claim C8 -/

/-- C8 counterexample: `portfolio_history_df` applies no sorting — the index
is the `begins_at` timestamps in the order the response lists them. For a
(cached) response whose records appear with timestamps `[2, 1]`, the resulting
table's index is `[2, 1]`, which is not in chronological order; this refutes
the claim that the table is always indexed chronologically. -/
theorem table_not_chronological_cex :
    (portfolioHistoryDf
        ⟨.missing, some ⟨"tok", 100⟩, false,
         (fun s i => if s = "year" ∧ i = "day"
            then some (5, ⟨some [⟨2, "2.0"⟩, ⟨1, "1.0"⟩], none⟩) else none), 10⟩
        ⟨⟨none, none, none⟩, ⟨"u", "p"⟩, none, [], fun _ => .other 500 "x"⟩
        (fun _ _ => .err 500 "down") "year" "day" false).res =
      .ok ⟨[2, 1], [mkRat 2 1, mkRat 1 1]⟩ ∧
    sortedByTime [2, 1] = false := by
  refine ⟨by decide, by decide⟩

/-- C8 (amended): whenever `fetch` succeeds with payload `d`,
`portfolio_history_df` returns `asTableOfData d`, where: the row list is
extracted by trying `equity_historicals` first and `historicals` second
(a missing key and an empty list both fall through, Python `or`); an empty
extraction yields the empty table without raising; and a non-empty extraction
whose equity strings all parse yields the table whose index is the `begins_at`
timestamps in the order the response lists them (not re-sorted) and whose
equity column is the parsed numeric values. -/
theorem as_table_shape (w : ApiState) (inp : LoginInputs)
    (hr : String → String → HistResponse) (span interval : String) (refresh : Bool)
    (d : HistoryData)
    (hfetch : (fetchPortfolioHistory w inp hr span interval refresh).res = .ok d) :
    (portfolioHistoryDf w inp hr span interval refresh).res = asTableOfData d ∧
    (∀ x xs rest, extractHist ⟨some (x :: xs), rest⟩ = x :: xs) ∧
    (∀ h1 y ys, (h1 = none ∨ h1 = some []) → extractHist ⟨h1, some (y :: ys)⟩ = y :: ys) ∧
    (extractHist d = [] → asTableOfData d = .ok ⟨[], []⟩) ∧
    (∀ qs, parseColumn (extractHist d) = some qs →
      asTableOfData d = .ok ⟨(extractHist d).map HistRecord.begins_at, qs⟩) := by
  refine ⟨?_, ?_, ?_, ?_, ?_⟩
  · match hF : fetchPortfolioHistory w inp hr span interval refresh with
    | ⟨rr, st, eff⟩ =>
      rw [hF] at hfetch
      simp only at hfetch
      simp only [portfolioHistoryDf, hF, hfetch]
  · intro x xs rest
    rfl
  · intro h1 y ys h
    rcases h with h | h <;> rw [h] <;> rfl
  · intro hemp
    unfold asTableOfData
    rw [hemp]
  · intro qs hqs
    match hx : extractHist d with
    | [] =>
      rw [hx] at hqs
      simp only [parseColumn] at hqs
      cases hqs
      simp [asTableOfData, hx]
    | x :: xs =>
      rw [hx] at hqs
      simp only [asTableOfData, hx, hqs]

/-- Witness for C8's amended theorem: a cache-served response carrying one
record under `historicals` with `equity = "12.5"`. -/
theorem as_table_shape_witness :
    (portfolioHistoryDf
        ⟨.missing, some ⟨"tok", 100⟩, false,
         (fun s i => if s = "year" ∧ i = "day"
            then some (5, ⟨none, some [⟨3, "12.5"⟩]⟩) else none), 10⟩
        ⟨⟨none, none, none⟩, ⟨"u", "p"⟩, none, [], fun _ => .other 500 "x"⟩
        (fun _ _ => .err 500 "down") "year" "day" false).res =
      asTableOfData ⟨none, some [⟨3, "12.5"⟩]⟩ ∧
    extractHist ⟨some [⟨3, "12.5"⟩], none⟩ = [⟨3, "12.5"⟩] ∧
    extractHist ⟨some [], some [⟨3, "12.5"⟩]⟩ = [⟨3, "12.5"⟩] ∧
    asTableOfData ⟨none, some [⟨3, "12.5"⟩]⟩ =
      .ok ⟨[3], [mkRat 25 2]⟩ := by
  have H := as_table_shape
    ⟨.missing, some ⟨"tok", 100⟩, false,
     (fun s i => if s = "year" ∧ i = "day"
        then some (5, ⟨none, some [⟨3, "12.5"⟩]⟩) else none), 10⟩
    ⟨⟨none, none, none⟩, ⟨"u", "p"⟩, none, [], fun _ => .other 500 "x"⟩
    (fun _ _ => .err 500 "down") "year" "day" false ⟨none, some [⟨3, "12.5"⟩]⟩ (by decide)
  refine ⟨H.1, H.2.1 ⟨3, "12.5"⟩ [] none, H.2.2.1 (some []) ⟨3, "12.5"⟩ [] (Or.inr rfl), ?_⟩
  have h5 := H.2.2.2.2 [mkRat 25 2] (by decide)
  simpa [extractHist] using h5

/-! ### Claim C9 -/

/-- C9: `_get_session()` is a singleton getter. (i) Two sequential calls
return the same underlying session object — whatever `SESSION` held before
the first call, the second call returns exactly the object the first one
returned. (ii) If no session exists, a fresh open one is created and stored.
(iii) If the existing session is closed, a fresh open one is created and
stored. (iv) If the session returned by a call is closed before the next
call, that next call returns a fresh session instead. -/
theorem session_singleton :
    (∀ s f1 f2, (getSession (getSession s f1).2 f2).1 = (getSession s f1).1) ∧
    (∀ f, getSession none f = (⟨f, false⟩, some ⟨f, false⟩)) ∧
    (∀ i f, getSession (some ⟨i, true⟩) f = (⟨f, false⟩, some ⟨f, false⟩)) ∧
    (∀ s f1 f2, (getSession (some ⟨((getSession s f1).1).id, true⟩) f2).1 = ⟨f2, false⟩) := by
  refine ⟨?_, fun f => rfl, fun i f => rfl, ?_⟩
  · intro s f1 f2
    match s with
    | none => rfl
    | some ⟨i, true⟩ => rfl
    | some ⟨i, false⟩ => rfl
  · intro s f1 f2
    rfl

end RobinhoodApi
